import Mathlib

/-!
Verification of the weather-logs pipeline (producer/producer.py and
consumer/consumer.py): a shallow embedding of the consumer's validator,
persister and message dispatcher, and of the producer's data generator,
with theorems about the claims of the specification.

Numbers are modelled as rationals: every Python int and every float the
programs compare against the integer bounds used here is represented
exactly, and the comparisons in the source are ordinary numeric
comparisons.
-/

/-- A Python value as it can appear in a JSON-decoded payload field.
JSON null decodes to Python `None`, JSON booleans to `bool`, JSON numbers
to `int` or `float`, JSON strings to `str`.  (JSON arrays/objects as field
values are not needed by any claim and are not modelled.) -/
inductive PyVal where
  | none : PyVal
  | bool (b : Bool) : PyVal
  | int (n : Int) : PyVal
  | float (q : Rat) : PyVal
  | str (s : String) : PyVal
deriving DecidableEq, Repr

/-- A decoded JSON object (Python dict): an association list from keys to
values.  Real dicts have unique keys; lookup takes the first binding, so
duplicate-key lists behave like the dict of their first bindings. -/
def Payload : Type := List (String × PyVal)

instance : DecidableEq Payload := by
  unfold Payload
  infer_instance

/-- Python `key in payload` for a dict. -/
def hasKey (p : Payload) (k : String) : Bool :=
  (p.lookup k).isSome

/-- Python `payload.get(key)`: the value if present, `None` otherwise. -/
def pyGet (p : Payload) (k : String) : PyVal :=
  (p.lookup k).getD PyVal.none

/-- Python `payload.get(key, default)`. -/
def pyGetD (p : Payload) (k : String) (d : PyVal) : PyVal :=
  (p.lookup k).getD d

/-- Python `isinstance(v, (int, float))`.  In CPython `bool` is a subclass
of `int`, so booleans satisfy this check. -/
def isNumeric : PyVal → Bool
  | PyVal.bool _ => true
  | PyVal.int _ => true
  | PyVal.float _ => true
  | _ => false

/-- The numeric value of a numeric Python value (`True` counts as 1 and
`False` as 0, as in CPython).  Only meaningful when `isNumeric` holds. -/
def pyNum : PyVal → Rat
  | PyVal.bool b => if b then 1 else 0
  | PyVal.int n => (n : Rat)
  | PyVal.float q => q
  | _ => 0

/-- consumer.py `validate_payload`: checks required keys, then the
temperature, humidity and (optional) wind fields, returning
`(es_valido, estado, motivo)`.  Reason strings follow the source; the
interpolated numeric values are rendered with `toString`. -/
def validate_payload (payload : Payload) : Bool × String × String :=
  if ¬ hasKey payload "station_id" then
    (false, "invalid", "falta station_id")
  else if ¬ hasKey payload "temperature_c" then
    (false, "invalid", "falta temperature_c")
  else if ¬ hasKey payload "humidity_percent" then
    (false, "invalid", "falta humidity_percent")
  else
    let temp := pyGet payload "temperature_c"
    if ¬ isNumeric temp then
      (false, "invalid_type", "temperatura no es numérica")
    else if pyNum temp < -100 ∨ pyNum temp > 100 then
      (false, "out_of_range",
        "temperatura " ++ toString (pyNum temp) ++ "°C fuera de rango [-100, 100]")
    else
      let humidity := pyGet payload "humidity_percent"
      if ¬ isNumeric humidity then
        (false, "invalid_type", "humedad no es numérica")
      else if pyNum humidity < 0 ∨ pyNum humidity > 100 then
        (false, "out_of_range",
          "humedad " ++ toString (pyNum humidity) ++ "% debe estar [0, 100]")
      else
        let wind := pyGet payload "wind_speed_ms"
        if wind ≠ PyVal.none then
          if ¬ isNumeric wind then
            (false, "invalid_type", "viento no es numérico")
          else if pyNum wind < 0 then
            (false, "out_of_range",
              "viento " ++ toString (pyNum wind) ++ " m/s no puede ser negativo")
          else
            (true, "ok", "")
        else
          (true, "ok", "")

example :
    validate_payload
      [("station_id", PyVal.str "station_1"),
       ("temperature_c", PyVal.float 22),
       ("humidity_percent", PyVal.float 55),
       ("wind_speed_ms", PyVal.float 3)] = (true, "ok", "") := by
  decide

example :
    (validate_payload
      [("station_id", PyVal.str "station_2"),
       ("temperature_c", PyVal.int 500),
       ("humidity_percent", PyVal.int 50)]).2.1 = "out_of_range" := by
  decide

example :
    (validate_payload [("temperature_c", PyVal.str "hot")]) =
      (false, "invalid", "falta station_id") := by
  decide

/-- A row of the `weather_logs` table, with the columns written by
consumer.py `insert_into_db`. -/
structure Row where
  station_id : PyVal
  timestamp : PyVal
  temperature_c : PyVal
  humidity_percent : PyVal
  wind_speed_ms : PyVal
  raw_payload : Payload
  status : String
deriving DecidableEq

/-- The PostgreSQL connection as the dispatcher sees it: the rows written
so far, and whether the next write raises (any exception inside
`insert_into_db`'s try block: broken connection, constraint error, ...). -/
structure DB where
  rows : List Row
  failing : Bool
deriving DecidableEq

/-- The row consumer.py `insert_into_db` builds from a payload:
each column via `payload.get`, the timestamp defaulting to the receipt
time `now`, the raw payload verbatim, and
`final_status = status if status == 'ok' else error_reason`. -/
def mkRow (payload : Payload) (status error_reason : String) (now : String) : Row :=
  { station_id := pyGet payload "station_id"
    timestamp := pyGetD payload "timestamp" (PyVal.str now)
    temperature_c := pyGet payload "temperature_c"
    humidity_percent := pyGet payload "humidity_percent"
    wind_speed_ms := pyGet payload "wind_speed_ms"
    raw_payload := payload
    status := if status = "ok" then status else error_reason }

/-- consumer.py `insert_into_db`: inside a try block, builds the row and
executes one INSERT, returning `True`; any exception is caught, logged and
turned into a `False` return, with no retry.  `now` is the receipt time
used when the payload carries no timestamp. -/
def insert_into_db (db : DB) (payload : Payload) (status error_reason : String)
    (now : String) : DB × Bool :=
  if db.failing then
    (db, false)
  else
    ({ db with rows := db.rows ++ [mkRow payload status error_reason now] }, true)

/-- What a message body looks like to `json.loads` in the dispatcher:
it decodes to a dict (the modelled payloads), or it decodes to a
non-iterable scalar such as a JSON number — for which the validator's
`'station_id' not in payload` raises `TypeError`, caught by the generic
handler — or it is not JSON at all and raises `json.JSONDecodeError`. -/
inductive Body where
  | dict (p : Payload) : Body
  | scalar : Body
  | undecodable : Body
deriving DecidableEq

/-- An observable action of the dispatcher while handling one delivery:
a persister call (with its arguments and boolean result) or a broker
signal on the delivery tag. -/
inductive MsgEvent where
  | persist (payload : Payload) (status reason : String) (success : Bool) : MsgEvent
  | ack (tag : Nat) : MsgEvent
  | nack_no_requeue (tag : Nat) : MsgEvent
deriving DecidableEq

/-- consumer.py `on_message_received`: parse the body; on success validate,
call `insert_into_db` (even for invalid payloads) and `basic_ack`; on
`JSONDecodeError` `basic_ack` anyway; on any other exception (here: a
decoded non-dict scalar, which makes the validator raise before any DB
access) `basic_nack` without requeue.  Returns the new DB state and the
events in the order they happen. -/
def on_message_received (db : DB) (tag : Nat) (body : Body) (now : String) :
    DB × List MsgEvent :=
  match body with
  | Body.dict payload =>
      let v := validate_payload payload
      let r := insert_into_db db payload v.2.1 v.2.2 now
      (r.1, [MsgEvent.persist payload v.2.1 v.2.2 r.2, MsgEvent.ack tag])
  | Body.scalar =>
      (db, [MsgEvent.nack_no_requeue tag])
  | Body.undecodable =>
      (db, [MsgEvent.ack tag])

/-- producer.py `generate_weather_data`: the payload built from one random
draw.  The draws are parameters: `k` is the station index
(`random.randint(1, 5)`), and `t`, `h`, `w` are the rounded uniform
samples, so `t ∈ [-10, 40]`, `h ∈ [20, 95]`, `w ∈ [0, 25]`; `ts` is the
ISO timestamp string. -/
def generate_weather_data (k : Nat) (t h w : Rat) (ts : String) : Payload :=
  [("station_id", PyVal.str ("station_" ++ toString k)),
   ("timestamp", PyVal.str ts),
   ("temperature_c", PyVal.float t),
   ("humidity_percent", PyVal.float h),
   ("wind_speed_ms", PyVal.float w)]

/-- The prefetch window set by consumer.py `connect_rabbitmq` via
`ch.basic_qos(prefetch_count=1)`. -/
def prefetch_count : Nat := 1

/-- A broker-observable trace event: a delivery to the consumer, or an
acknowledgment / rejection from it. -/
inductive TraceEv where
  | deliver (tag : Nat) : TraceEv
  | ack (tag : Nat) : TraceEv
  | nack_no_requeue (tag : Nat) : TraceEv
deriving DecidableEq

/-- The broker-visible part of the dispatcher's events for one message. -/
def broker_events (evs : List MsgEvent) : List TraceEv :=
  evs.filterMap fun e =>
    match e with
    | MsgEvent.persist _ _ _ _ => Option.none
    | MsgEvent.ack t => Option.some (TraceEv.ack t)
    | MsgEvent.nack_no_requeue t => Option.some (TraceEv.nack_no_requeue t)

/-- The state of one consumer channel: the queued messages (tagged with
their delivery tags), the deliveries currently outstanding (unacked), the
database, and the broker-observable trace so far. -/
structure SysState where
  queue : List (Nat × Body)
  inflight : List (Nat × Body)
  db : DB
  trace : List TraceEv

/-- One step of the channel.  The broker may deliver the next queued
message only while the outstanding deliveries are below the prefetch
window (the AMQP basic.qos contract, with the `prefetch_count` set in
`connect_rabbitmq`); the consumer processes the oldest outstanding
delivery by running `on_message_received` on it. -/
inductive Step : SysState → SysState → Prop where
  | deliver (s : SysState) (t : Nat) (b : Body) (rest : List (Nat × Body)) :
      s.queue = (t, b) :: rest →
      s.inflight.length < prefetch_count →
      Step s ⟨rest, s.inflight ++ [(t, b)], s.db, s.trace ++ [TraceEv.deliver t]⟩
  | process (s : SysState) (now : String) (t : Nat) (b : Body)
      (rest : List (Nat × Body)) :
      s.inflight = (t, b) :: rest →
      Step s ⟨s.queue, rest, (on_message_received s.db t b now).1,
              s.trace ++ broker_events (on_message_received s.db t b now).2⟩

/-- Reflexive-transitive closure of `Step`. -/
inductive Reachable (s0 : SysState) : SysState → Prop where
  | refl : Reachable s0 s0
  | step {s s' : SysState} : Reachable s0 s → Step s s' → Reachable s0 s'

/-- A channel starts with no outstanding delivery and an empty trace. -/
def isInit (s : SysState) : Prop :=
  s.inflight = [] ∧ s.trace = []

/-- Tag `t` has been acked or rejected somewhere in the trace. -/
def settled (tr : List TraceEv) (t : Nat) : Prop :=
  TraceEv.ack t ∈ tr ∨ TraceEv.nack_no_requeue t ∈ tr

/-- Inductive invariant: never more than `prefetch_count` outstanding
deliveries, and every delivered tag is settled or still outstanding. -/
def DispatchInv (s : SysState) : Prop :=
  s.inflight.length ≤ prefetch_count ∧
  ∀ t, TraceEv.deliver t ∈ s.trace →
    settled s.trace t ∨ t ∈ s.inflight.map Prod.fst

lemma hasKey_of_isNumeric (p : Payload) (k : String)
    (h : isNumeric (pyGet p k) = true) : hasKey p k = true := by
  unfold hasKey
  unfold pyGet at h
  cases hl : p.lookup k with
  | none => rw [hl] at h; simp [isNumeric] at h
  | some v => simp [hl]

lemma isNumeric_ne_none {v : PyVal} (h : isNumeric v = true) : v ≠ PyVal.none := by
  intro e
  rw [e] at h
  simp [isNumeric] at h

lemma validate_payload_ok (p : Payload)
    (hst : hasKey p "station_id" = true)
    (ht : isNumeric (pyGet p "temperature_c") = true)
    (ht1 : -100 ≤ pyNum (pyGet p "temperature_c"))
    (ht2 : pyNum (pyGet p "temperature_c") ≤ 100)
    (hh : isNumeric (pyGet p "humidity_percent") = true)
    (hh1 : 0 ≤ pyNum (pyGet p "humidity_percent"))
    (hh2 : pyNum (pyGet p "humidity_percent") ≤ 100)
    (hw : pyGet p "wind_speed_ms" = PyVal.none ∨
      (isNumeric (pyGet p "wind_speed_ms") = true ∧
        0 ≤ pyNum (pyGet p "wind_speed_ms"))) :
    validate_payload p = (true, "ok", "") := by
  have htk := hasKey_of_isNumeric p "temperature_c" ht
  have hhk := hasKey_of_isNumeric p "humidity_percent" hh
  have htr : ¬ (pyNum (pyGet p "temperature_c") < -100 ∨
      pyNum (pyGet p "temperature_c") > 100) := by
    push_neg
    exact ⟨ht1, ht2⟩
  have hhr : ¬ (pyNum (pyGet p "humidity_percent") < 0 ∨
      pyNum (pyGet p "humidity_percent") > 100) := by
    push_neg
    exact ⟨hh1, hh2⟩
  rcases hw with hw | ⟨hw1, hw2⟩
  · simp [validate_payload, hst, htk, hhk, ht, hh, htr, hhr, hw]
  · have hwne : pyGet p "wind_speed_ms" ≠ PyVal.none := isNumeric_ne_none hw1
    have hwr : ¬ pyNum (pyGet p "wind_speed_ms") < 0 := not_lt.mpr hw2
    simp [validate_payload, hst, htk, hhk, ht, hh, htr, hhr, hw1, hwne, hwr]

set_option maxHeartbeats 1000000 in
lemma validate_accepted_iff (p : Payload) :
    (validate_payload p).2.1 = "ok" ↔ (validate_payload p).1 = true := by
  unfold validate_payload
  split_ifs <;> try simp
  all_goals (split_ifs <;> try simp)

/-- Modelled from the spec's §4.4 rule list: the validation rules in the
order the spec states them, each as a violation condition with its status
and reason.  This is the spec-side counterpart of `validate_payload`, used
to state the first-failure-wins refinement. -/
def validation_rules (p : Payload) : List (Bool × String × String) :=
  [(!(hasKey p "station_id"), "invalid", "falta station_id"),
   (!(hasKey p "temperature_c"), "invalid", "falta temperature_c"),
   (!(hasKey p "humidity_percent"), "invalid", "falta humidity_percent"),
   (!(isNumeric (pyGet p "temperature_c")), "invalid_type", "temperatura no es numérica"),
   (isNumeric (pyGet p "temperature_c") &&
      decide (pyNum (pyGet p "temperature_c") < -100 ∨ pyNum (pyGet p "temperature_c") > 100),
    "out_of_range",
    "temperatura " ++ toString (pyNum (pyGet p "temperature_c")) ++ "°C fuera de rango [-100, 100]"),
   (!(isNumeric (pyGet p "humidity_percent")), "invalid_type", "humedad no es numérica"),
   (isNumeric (pyGet p "humidity_percent") &&
      decide (pyNum (pyGet p "humidity_percent") < 0 ∨ pyNum (pyGet p "humidity_percent") > 100),
    "out_of_range",
    "humedad " ++ toString (pyNum (pyGet p "humidity_percent")) ++ "% debe estar [0, 100]"),
   (decide (pyGet p "wind_speed_ms" ≠ PyVal.none) && !(isNumeric (pyGet p "wind_speed_ms")),
    "invalid_type", "viento no es numérico"),
   (decide (pyGet p "wind_speed_ms" ≠ PyVal.none) && (isNumeric (pyGet p "wind_speed_ms") &&
      decide (pyNum (pyGet p "wind_speed_ms") < 0)),
    "out_of_range",
    "viento " ++ toString (pyNum (pyGet p "wind_speed_ms")) ++ " m/s no puede ser negativo")]

/-- Modelled from the spec: the outcome determined by the first violated
rule of `validation_rules`, or `ok` when no rule is violated. -/
def first_failure_outcome (p : Payload) : Bool × String × String :=
  match (validation_rules p).find? (fun r => r.1) with
  | Option.some r => (false, r.2.1, r.2.2)
  | Option.none => (true, "ok", "")

lemma broker_events_no_deliver (evs : List MsgEvent) (t : Nat) :
    TraceEv.deliver t ∉ broker_events evs := by
  intro h
  rw [broker_events, List.mem_filterMap] at h
  obtain ⟨e, _, he⟩ := h
  cases e <;> simp at he

lemma on_message_settles_tag (db : DB) (t : Nat) (b : Body) (now : String) :
    settled (broker_events (on_message_received db t b now).2) t := by
  cases b <;> simp [on_message_received, broker_events, settled]

lemma settled_append_left {tr tr' : List TraceEv} {t : Nat} (h : settled tr t) :
    settled (tr ++ tr') t := by
  rcases h with h | h
  · exact Or.inl (List.mem_append_left _ h)
  · exact Or.inr (List.mem_append_left _ h)

lemma settled_append_right {tr tr' : List TraceEv} {t : Nat} (h : settled tr' t) :
    settled (tr ++ tr') t := by
  rcases h with h | h
  · exact Or.inl (List.mem_append_right _ h)
  · exact Or.inr (List.mem_append_right _ h)

lemma dispatchInv_init (s : SysState) (h : isInit s) : DispatchInv s := by
  obtain ⟨h1, h2⟩ := h
  constructor
  · simp [h1]
  · intro t ht
    rw [h2] at ht
    simp at ht

lemma dispatchInv_step {s s' : SysState} (hs : DispatchInv s) (st : Step s s') :
    DispatchInv s' := by
  cases st with
  | deliver t b rest hq hlen =>
    have hinf : s.inflight = [] := by
      rw [prefetch_count] at hlen
      exact List.eq_nil_of_length_eq_zero (Nat.lt_one_iff.mp hlen)
    constructor
    · simp [hinf, prefetch_count]
    · intro t' ht'
      simp only [List.mem_append, List.mem_singleton] at ht'
      rcases ht' with ht' | ht'
      · rcases hs.2 t' ht' with hset | hmem
        · exact Or.inl (settled_append_left hset)
        · rw [hinf] at hmem
          simp at hmem
      · rw [TraceEv.deliver.injEq] at ht'
        subst ht'
        exact Or.inr (by simp)
  | process now t b rest hinf =>
    constructor
    · have hlen : s.inflight.length = rest.length + 1 := by rw [hinf]; simp
      have hle := hs.1
      show rest.length ≤ prefetch_count
      omega
    · intro t' ht'
      simp only [List.mem_append] at ht'
      rcases ht' with ht' | ht'
      · rcases hs.2 t' ht' with hset | hmem
        · exact Or.inl (settled_append_left hset)
        · rw [hinf] at hmem
          simp only [List.map_cons, List.mem_cons] at hmem
          rcases hmem with hmem | hmem
          · rw [hmem]
            exact Or.inl (settled_append_right (on_message_settles_tag s.db t b now))
          · exact Or.inr hmem
      · exact absurd ht' (broker_events_no_deliver _ t')

lemma dispatchInv_reachable {s0 s : SysState} (h0 : isInit s0)
    (h : Reachable s0 s) : DispatchInv s := by
  induction h with
  | refl => exact dispatchInv_init s0 h0
  | step _ hst ih => exact dispatchInv_step ih hst

/-- A concrete well-formed reading used as a test input. -/
def samplePayload : Payload :=
  [("station_id", PyVal.str "station_1"),
   ("temperature_c", PyVal.int 22),
   ("humidity_percent", PyVal.int 55),
   ("wind_speed_ms", PyVal.int 3)]

/-- A concrete reading that is valid except for a negative wind speed. -/
def negWindPayload : Payload :=
  [("station_id", PyVal.str "station_1"),
   ("temperature_c", PyVal.int 22),
   ("humidity_percent", PyVal.int 55),
   ("wind_speed_ms", PyVal.int (-1))]

/-- C1: for every message whose body decodes successfully, the dispatcher
calls the persister and then acknowledges the message unconditionally —
the event list is the persister call followed by the ack, for every DB
state, so in particular whether the persister's boolean result is true or
false; that boolean is never consulted for the ack/reject decision. -/
theorem C1_persist_then_ack_unconditional (db : DB) (tag : Nat) (p : Payload)
    (now : String) :
    on_message_received db tag (Body.dict p) now =
      ((insert_into_db db p (validate_payload p).2.1 (validate_payload p).2.2 now).1,
       [MsgEvent.persist p (validate_payload p).2.1 (validate_payload p).2.2
          (insert_into_db db p (validate_payload p).2.1 (validate_payload p).2.2 now).2,
        MsgEvent.ack tag]) := rfl

/-- C2: for every message whose body fails to decode as JSON, the
dispatcher acknowledges the message and stores nothing: the DB state is
unchanged (zero rows from that message) and the only event is the ack —
no persister call occurs. -/
theorem C2_undecodable_acked_nothing_stored (db : DB) (tag : Nat) (now : String) :
    on_message_received db tag Body.undecodable now = (db, [MsgEvent.ack tag]) := rfl

/-- C3: under prefetch=1, whenever the broker performs a delivery step
from a reachable channel state, every previously delivered tag has
already been acked or rejected — message N+1 is never fetched before
message N's ack/reject is sent. -/
theorem C3_no_fetch_before_settlement (s0 s s' : SysState) (h0 : isInit s0)
    (hr : Reachable s0 s) (hst : Step s s') (t : Nat)
    (hnew : s'.trace = s.trace ++ [TraceEv.deliver t]) :
    ∀ t', TraceEv.deliver t' ∈ s.trace → settled s.trace t' := by
  intro t' ht'
  have hinv := dispatchInv_reachable h0 hr
  cases hst with
  | deliver tt bb rest hq hlen =>
    have hinf : s.inflight = [] := by
      rw [prefetch_count] at hlen
      exact List.eq_nil_of_length_eq_zero (Nat.lt_one_iff.mp hlen)
    rcases hinv.2 t' ht' with h | h
    · exact h
    · rw [hinf] at h
      simp at h
  | process now tt bb rest hinf =>
    exfalso
    have heq : s.trace ++ broker_events (on_message_received s.db tt bb now).2 =
        s.trace ++ [TraceEv.deliver t] := hnew
    have heq2 := List.append_cancel_left heq
    have hmem : TraceEv.deliver t ∈ broker_events (on_message_received s.db tt bb now).2 := by
      rw [heq2]
      simp
    exact broker_events_no_deliver _ t hmem

/-- C3 witness: a concrete two-message run.  From the initial state the
broker delivers tag 1, the consumer processes (acks) it, and only then can
the broker deliver tag 2; the theorem yields that tag 1 was settled at
that moment. -/
theorem C3_no_fetch_before_settlement_witness :
    settled [TraceEv.deliver 1, TraceEv.ack 1] 1 := by
  have hstep1 : Step
      ⟨[(1, Body.undecodable), (2, Body.undecodable)], [], ⟨[], false⟩, []⟩
      ⟨[(2, Body.undecodable)], [(1, Body.undecodable)], ⟨[], false⟩,
        [TraceEv.deliver 1]⟩ :=
    Step.deliver _ 1 Body.undecodable [(2, Body.undecodable)] rfl (by decide)
  have hstep2 : Step
      ⟨[(2, Body.undecodable)], [(1, Body.undecodable)], ⟨[], false⟩,
        [TraceEv.deliver 1]⟩
      ⟨[(2, Body.undecodable)], [], ⟨[], false⟩,
        [TraceEv.deliver 1, TraceEv.ack 1]⟩ :=
    Step.process _ "" 1 Body.undecodable [] rfl
  have hstep3 : Step
      ⟨[(2, Body.undecodable)], [], ⟨[], false⟩,
        [TraceEv.deliver 1, TraceEv.ack 1]⟩
      ⟨[], [(2, Body.undecodable)], ⟨[], false⟩,
        [TraceEv.deliver 1, TraceEv.ack 1, TraceEv.deliver 2]⟩ :=
    Step.deliver _ 2 Body.undecodable [] rfl (by decide)
  exact C3_no_fetch_before_settlement
    ⟨[(1, Body.undecodable), (2, Body.undecodable)], [], ⟨[], false⟩, []⟩
    ⟨[(2, Body.undecodable)], [], ⟨[], false⟩,
      [TraceEv.deliver 1, TraceEv.ack 1]⟩
    ⟨[], [(2, Body.undecodable)], ⟨[], false⟩,
      [TraceEv.deliver 1, TraceEv.ack 1, TraceEv.deliver 2]⟩
    ⟨rfl, rfl⟩
    (Reachable.step (Reachable.step Reachable.refl hstep1) hstep2)
    hstep3 2 rfl 1 (by simp)

/-- C4 fails as stated: when the store write throws, a successfully
dispatched and decoded message produces zero stored rows (here the DB has
`failing = true`), yet the message is still acknowledged. -/
theorem C4_counterexample_store_failure :
    (on_message_received ⟨[], true⟩ 7 (Body.dict samplePayload) "T").1.rows = [] ∧
    MsgEvent.ack 7 ∈ (on_message_received ⟨[], true⟩ 7 (Body.dict samplePayload) "T").2 := by
  constructor
  · rfl
  · decide

/-- C4 (amended): provided the store write does not throw, every
dispatched and decoded message appends exactly one row; that row's
raw_payload is the original payload verbatim, and its status column is
"ok" when the payload is valid and the rejection reason string
otherwise. -/
theorem C4_decoded_message_stored_once (db : DB) (tag : Nat) (p : Payload)
    (now : String) (hdb : db.failing = false) :
    (on_message_received db tag (Body.dict p) now).1.rows =
      db.rows ++ [mkRow p (validate_payload p).2.1 (validate_payload p).2.2 now] ∧
    (mkRow p (validate_payload p).2.1 (validate_payload p).2.2 now).raw_payload = p ∧
    (mkRow p (validate_payload p).2.1 (validate_payload p).2.2 now).status =
      (if (validate_payload p).1 = true then "ok" else (validate_payload p).2.2) := by
  refine ⟨?_, rfl, ?_⟩
  · simp [on_message_received, insert_into_db, hdb]
  · unfold mkRow
    by_cases h : (validate_payload p).1 = true
    · have hok : (validate_payload p).2.1 = "ok" := (validate_accepted_iff p).mpr h
      simp [hok, h]
    · have hok : ¬ (validate_payload p).2.1 = "ok" :=
        fun e => h ((validate_accepted_iff p).mp e)
      simp [hok, h]

/-- C4 witness: on a healthy store, the sample message yields exactly its
one row. -/
theorem C4_decoded_message_stored_once_witness :
    (on_message_received ⟨[], false⟩ 7 (Body.dict samplePayload) "T").1.rows =
      [mkRow samplePayload (validate_payload samplePayload).2.1
        (validate_payload samplePayload).2.2 "T"] :=
  (C4_decoded_message_stored_once ⟨[], false⟩ 7 samplePayload "T" rfl).1

/-- C5: every payload with station_id present, numeric temperature_c in
[-100, 100], numeric humidity_percent in [0, 100], and wind_speed_ms
absent or numeric and non-negative, is accepted with status "ok". -/
theorem C5_valid_payload_accepted (p : Payload)
    (hst : hasKey p "station_id" = true)
    (ht : isNumeric (pyGet p "temperature_c") = true)
    (ht1 : -100 ≤ pyNum (pyGet p "temperature_c"))
    (ht2 : pyNum (pyGet p "temperature_c") ≤ 100)
    (hh : isNumeric (pyGet p "humidity_percent") = true)
    (hh1 : 0 ≤ pyNum (pyGet p "humidity_percent"))
    (hh2 : pyNum (pyGet p "humidity_percent") ≤ 100)
    (hw : pyGet p "wind_speed_ms" = PyVal.none ∨
      (isNumeric (pyGet p "wind_speed_ms") = true ∧
        0 ≤ pyNum (pyGet p "wind_speed_ms"))) :
    validate_payload p = (true, "ok", "") :=
  validate_payload_ok p hst ht ht1 ht2 hh hh1 hh2 hw

/-- C5 witness: the sample payload is accepted. -/
theorem C5_valid_payload_accepted_witness :
    validate_payload samplePayload = (true, "ok", "") :=
  C5_valid_payload_accepted samplePayload (by decide) (by decide) (by decide)
    (by decide) (by decide) (by decide) (by decide)
    (Or.inr ⟨by decide, by decide⟩)

set_option maxHeartbeats 1600000 in
/-- C6: the validator equals the first-failure-wins scan of the spec's
ordered rule list: for every payload — in particular one violating
several rules — the earliest violated rule alone determines the returned
status and reason, and with no violation the result is "ok". -/
theorem C6_first_violated_rule_wins (p : Payload) :
    validate_payload p = first_failure_outcome p := by
  unfold validate_payload first_failure_outcome validation_rules
  split_ifs <;> try (simp_all [List.find?_cons, -not_lt, -not_le, -Bool.decide_or])
  all_goals (split_ifs <;> try (simp_all [List.find?_cons, -not_lt, -not_le, -Bool.decide_or]))

/-- C7: for a payload passing every earlier rule, an absent wind_speed_ms
yields "ok"; a present non-numeric one yields invalid_type; a present
numeric negative one yields out_of_range. -/
theorem C7_wind_rule (p : Payload)
    (hst : hasKey p "station_id" = true)
    (ht : isNumeric (pyGet p "temperature_c") = true)
    (ht1 : -100 ≤ pyNum (pyGet p "temperature_c"))
    (ht2 : pyNum (pyGet p "temperature_c") ≤ 100)
    (hh : isNumeric (pyGet p "humidity_percent") = true)
    (hh1 : 0 ≤ pyNum (pyGet p "humidity_percent"))
    (hh2 : pyNum (pyGet p "humidity_percent") ≤ 100) :
    (pyGet p "wind_speed_ms" = PyVal.none → validate_payload p = (true, "ok", "")) ∧
    (pyGet p "wind_speed_ms" ≠ PyVal.none →
      isNumeric (pyGet p "wind_speed_ms") = false →
      validate_payload p = (false, "invalid_type", "viento no es numérico")) ∧
    (isNumeric (pyGet p "wind_speed_ms") = true →
      pyNum (pyGet p "wind_speed_ms") < 0 →
      (validate_payload p).1 = false ∧ (validate_payload p).2.1 = "out_of_range") := by
  have htk := hasKey_of_isNumeric p "temperature_c" ht
  have hhk := hasKey_of_isNumeric p "humidity_percent" hh
  have htr : ¬ (pyNum (pyGet p "temperature_c") < -100 ∨
      pyNum (pyGet p "temperature_c") > 100) := by
    push_neg
    exact ⟨ht1, ht2⟩
  have hhr : ¬ (pyNum (pyGet p "humidity_percent") < 0 ∨
      pyNum (pyGet p "humidity_percent") > 100) := by
    push_neg
    exact ⟨hh1, hh2⟩
  refine ⟨?_, ?_, ?_⟩
  · intro hw
    exact validate_payload_ok p hst ht ht1 ht2 hh hh1 hh2 (Or.inl hw)
  · intro hwne hwnum
    simp [validate_payload, hst, htk, hhk, ht, hh, htr, hhr, hwne, hwnum]
  · intro hwnum hwneg
    have hwne : pyGet p "wind_speed_ms" ≠ PyVal.none := isNumeric_ne_none hwnum
    have heq : validate_payload p = (false, "out_of_range",
        "viento " ++ toString (pyNum (pyGet p "wind_speed_ms")) ++
          " m/s no puede ser negativo") := by
      simp [validate_payload, hst, htk, hhk, ht, hh, htr, hhr, hwne, hwnum, hwneg]
    rw [heq]
    exact ⟨rfl, rfl⟩

/-- C7 witness: wind_speed_ms = -1 on an otherwise valid payload gives
out_of_range. -/
theorem C7_wind_rule_witness :
    (validate_payload negWindPayload).2.1 = "out_of_range" :=
  ((C7_wind_rule negWindPayload (by decide) (by decide) (by decide) (by decide)
      (by decide) (by decide) (by decide)).2.2 (by decide) (by decide)).2

/-- C8: the persister is total — for every DB state and record it either
appends exactly one row and returns true, or leaves the rows unchanged and
returns false; there is no other outcome and no internal retry. -/
theorem C8_insert_into_db_dichotomy (db : DB) (p : Payload)
    (status reason now : String) :
    ((insert_into_db db p status reason now).2 = true ∧
      (insert_into_db db p status reason now).1.rows =
        db.rows ++ [mkRow p status reason now]) ∨
    ((insert_into_db db p status reason now).2 = false ∧
      (insert_into_db db p status reason now).1.rows = db.rows) := by
  by_cases h : db.failing = true
  · right
    simp [insert_into_db, h]
  · left
    simp [insert_into_db, h]

/-- C9: every payload the generator can produce is accepted by the
validator, because the generator's ranges are contained in the
validator's. -/
theorem C9_generated_payload_accepted (k : Nat) (t h w : Rat) (ts : String)
    (hk1 : 1 ≤ k) (hk2 : k ≤ 5)
    (ht1 : -10 ≤ t) (ht2 : t ≤ 40)
    (hh1 : 20 ≤ h) (hh2 : h ≤ 95)
    (hw1 : 0 ≤ w) (hw2 : w ≤ 25) :
    validate_payload (generate_weather_data k t h w ts) = (true, "ok", "") := by
  apply validate_payload_ok
  · rfl
  · rfl
  · show (-100 : Rat) ≤ t
    linarith
  · show t ≤ (100 : Rat)
    linarith
  · rfl
  · show (0 : Rat) ≤ h
    linarith
  · show h ≤ (100 : Rat)
    linarith
  · refine Or.inr ⟨rfl, ?_⟩
    show (0 : Rat) ≤ w
    linarith

/-- C9 witness: one concrete draw. -/
theorem C9_generated_payload_accepted_witness :
    validate_payload (generate_weather_data 1 0 50 0 "ts") = (true, "ok", "") :=
  C9_generated_payload_accepted 1 0 50 0 "ts" (by norm_num) (by norm_num)
    (by norm_num) (by norm_num) (by norm_num) (by norm_num) (by norm_num)
    (by norm_num)

/-- C10: booleans pass the numeric type checks (CPython's bool is a
subclass of int): with temperature_c, humidity_percent and optionally
wind_speed_ms boolean, the validator applies the range checks to 0/1 and
accepts, never returning invalid_type. -/
theorem C10_bool_passes_numeric_checks (v : PyVal) (b1 b2 b3 : Bool) :
    validate_payload
      [("station_id", v), ("temperature_c", PyVal.bool b1),
       ("humidity_percent", PyVal.bool b2)] = (true, "ok", "") ∧
    validate_payload
      [("station_id", v), ("temperature_c", PyVal.bool b1),
       ("humidity_percent", PyVal.bool b2),
       ("wind_speed_ms", PyVal.bool b3)] = (true, "ok", "") := by
  cases b1 <;> cases b2 <;> cases b3 <;> exact ⟨rfl, rfl⟩
